import Mathlib

/-!
# Verification of the djPro dual-deck DJ mixing engine

Shallow embedding of the audio-engine core of the repository
(`src/services/audioService.ts`, here `src/unnamed/part_006`, and the
deck controller logic in `src/App.tsx`), together with theorems settling
the frozen claims about its specification.

Conventions of the embedding:
* JavaScript `Map` objects become association lists `List (String × α)`
  with lookup/set/erase helpers (`alookup`, `aset`, `aerase`).
* Audio sample values and UI-level quantities are rationals (`ℚ`) where the
  source only adds, multiplies and compares them; quantities produced by
  transcendental functions (`Math.cos`, `Tone.gainToDb`,
  `Tone.Midi(..).toFrequency()`, the exponential filter-frequency map)
  live in `ℝ`.
* `-Infinity` decibel values (the loop-roll mute, `gainToDb 0`) are the
  `neginf` constructor of a dedicated `Db` type.
* Asynchronous wall-clock reads (`player.currentTime`) are passed to the
  modelled operations as explicit parameters.
-/

set_option maxHeartbeats 1000000
set_option maxRecDepth 100000

namespace DjPro

/-! ## Association-list helpers (model of JavaScript `Map`) -/

/-- Lookup in an association list (model of `Map.get`). -/
def alookup {α : Type} (k : String) : List (String × α) → Option α
  | [] => none
  | (k', v) :: t => if k' = k then some v else alookup k t

/-- Remove a key (model of `Map.delete`). -/
def aerase {α : Type} (k : String) (l : List (String × α)) : List (String × α) :=
  l.filter (fun p => p.1 ≠ k)

/-- Insert or replace a key (model of `Map.set`). -/
def aset {α : Type} (k : String) (v : α) (l : List (String × α)) : List (String × α) :=
  (k, v) :: aerase k l

@[simp] theorem alookup_nil {α : Type} (k : String) : alookup k ([] : List (String × α)) = none :=
  rfl

@[simp] theorem alookup_cons {α : Type} (k k' : String) (v : α) (t : List (String × α)) :
    alookup k ((k', v) :: t) = if k' = k then some v else alookup k t :=
  rfl

theorem alookup_aerase_self {α : Type} (k : String) (l : List (String × α)) :
    alookup k (aerase k l) = none := by
  induction l with
  | nil => rfl
  | cons p t ih =>
    obtain ⟨k', v⟩ := p
    by_cases h : k' = k
    · simpa [aerase, h] using ih
    · simpa [aerase, h] using ih

theorem alookup_aerase_ne {α : Type} (k k' : String) (l : List (String × α)) (h : k' ≠ k) :
    alookup k' (aerase k l) = alookup k' l := by
  induction l with
  | nil => rfl
  | cons p t ih =>
    obtain ⟨k₀, v⟩ := p
    by_cases hk : k₀ = k
    · have hk₀k' : ¬ (k₀ = k') := fun hh => h (hk ▸ hh.symm ▸ rfl)
      show alookup k' (aerase k ((k₀, v) :: t)) = alookup k' ((k₀, v) :: t)
      rw [show aerase k ((k₀, v) :: t) = aerase k t by simp [aerase, hk]]
      rw [ih, alookup_cons, if_neg hk₀k']
    · show alookup k' (aerase k ((k₀, v) :: t)) = alookup k' ((k₀, v) :: t)
      rw [show aerase k ((k₀, v) :: t) = (k₀, v) :: aerase k t by simp [aerase, hk]]
      rw [alookup_cons, alookup_cons, ih]

theorem alookup_aset_self {α : Type} (k : String) (v : α) (l : List (String × α)) :
    alookup k (aset k v l) = some v := by
  simp [aset, alookup]

theorem alookup_aset_ne {α : Type} (k k' : String) (v : α) (l : List (String × α)) (h : k' ≠ k) :
    alookup k' (aset k v l) = alookup k' l := by
  have hkk' : ¬ (k = k') := fun hh => h hh.symm
  rw [aset, alookup_cons, if_neg hkk', alookup_aerase_ne k k' l h]

/-! ## Analysis module (`getWaveformPeaks`, `detectBPM` in part_006)

The first channel of a decoded `AudioBuffer` is a `List ℚ`; out-of-range
reads use `List.getD` with default `0` (they never happen on the index
ranges the source iterates, see the bound lemmas below). -/

/-- The `Math.min` on rationals, written as a plain conditional so that the
kernel can evaluate it. -/
def qmin (a b : ℚ) : ℚ := if a ≤ b then a else b

/-- The `Math.floor` for rationals, as `Rat.floor` (kernel-evaluable; equal to
Mathlib's `⌊·⌋` by `Rat.floor_int_div_nat_eq_div`-style unfolding). -/
def jsFloor (q : ℚ) : ℤ := Rat.floor q

/-- The `Math.round` for the non-negative quantities the source rounds:
`⌊q + 1/2⌋` converted to `ℕ`. -/
def jsRound (q : ℚ) : ℕ := (jsFloor (q + 1/2)).toNat

/-- One autocorrelation bucket of `detectBPM`: the source fills
`correlations[lag]` with `Σ_{i < analysisSamples − lag} data[i]·data[i+lag]`
for `MIN_PERIOD_SAMPLES ≤ lag < MAX_PERIOD_SAMPLES` and leaves the
`fill(0)` value everywhere else. -/
def correlationAt (d : List ℚ) (nA minP maxP lag : ℕ) : ℚ :=
  if minP ≤ lag ∧ lag < maxP then
    ((List.range (nA - lag)).map (fun i => d.getD i 0 * d.getD (i + lag) 0)).sum
  else 0

/-- The selection loop of `detectBPM`: starting from
`maxCorrelation = -Infinity` (modelled `none`) and `bestPeriod = 0`, scan
`i` from `MIN_BPM` (sic — the source uses the BPM constant `60`, not
`MIN_PERIOD_SAMPLES`, as the first index) up to `MAX_PERIOD_SAMPLES`,
keeping the first strictly-largest correlation value. -/
def scanBestPeriod (corr : ℕ → ℚ) (maxP : ℕ) : ℕ :=
  ((List.range' 60 (maxP - 60)).foldl
    (fun st i =>
      match st.1 with
      | none => (some (corr i), i)
      | some m => if corr i > m then (some (corr i), i) else st)
    ((none : Option ℚ), 0)).2

/-- The `detectBPM(audioBuffer)` from part_006, lines 598–631.
`sr` is `audioBuffer.sampleRate`, `d` the first channel. -/
def detectBPM (sr : ℕ) (d : List ℚ) : ℕ :=
  let duration : ℚ := (d.length : ℚ) / (sr : ℚ)
  let analysisDuration : ℚ := qmin duration 30
  let analysisSamples : ℕ := (jsFloor (analysisDuration * (sr : ℚ))).toNat
  let minPeriodSamples : ℕ := sr * 60 / 200
  let maxPeriodSamples : ℕ := sr * 60 / 60
  let bestPeriod := scanBestPeriod
    (correlationAt d analysisSamples minPeriodSamples maxPeriodSamples) maxPeriodSamples
  if bestPeriod = 0 then 120
  else jsRound ((60 * (sr : ℚ)) / (bestPeriod : ℚ))

/-- The inner per-bucket loop of `getWaveformPeaks`: running maximum of
absolute sample values over indices `start ≤ j < e`, starting from `0`,
written with the source's `if sample > max` update. -/
def bucketPeak (d : List ℚ) (start e : ℕ) : ℚ :=
  (List.range' start (e - start)).foldl
    (fun m j => let s := |d.getD j 0|; if s > m then s else m) 0

/-- The `getWaveformPeaks(audioBuffer)` from part_006, lines 578–596:
500 buckets of width `⌊length/500⌋`, bucket `i` covering
`[i·w, min (i·w + w) length)`. -/
def getWaveformPeaks (d : List ℚ) : List ℚ :=
  let samplesPerPixel := d.length / 500
  (List.range 500).map (fun i =>
    bucketPeak d (i * samplesPerPixel) (min (i * samplesPerPixel + samplesPerPixel) d.length))

/-- The spec's description of one waveform bucket: the maximum absolute
sample magnitude within the equal-width bucket `i` (width `⌊length/500⌋`),
as a fold of `max` over the rectified samples of that bucket. -/
def specBucketPeak (d : List ℚ) (i : ℕ) : ℚ :=
  let w := d.length / 500
  let start := i * w
  let e := min (start + w) d.length
  ((List.range' start (e - start)).map (fun j => |d.getD j 0|)).foldl max 0

/-! ## Mix bus: crossfader law (`applyCrossfaderVolume` in App.tsx, lines 165–180)

The `useEffect` with dependencies `[crossfaderPosition, deckAState.volume,
deckBState.volume]` recomputes both decks' `outputGain.gain.value` whenever
the crossfader position or either fader volume changes; the recomputation
is modelled by `recomputeGains`, and each dependency change by an
operation that writes the new input and then recomputes. -/

/-- Deck identifiers: exactly two decks. -/
inductive DeckId where
  | A : DeckId
  | B : DeckId
  deriving DecidableEq

/-- The deck-A multiplier `Math.cos(crossfaderPosition * 0.5 * Math.PI)`. -/
noncomputable def crossfaderMultA (p : ℝ) : ℝ := Real.cos (p * (1/2) * Real.pi)

/-- The deck-B multiplier `Math.cos((1 - crossfaderPosition) * 0.5 * Math.PI)`. -/
noncomputable def crossfaderMultB (p : ℝ) : ℝ := Real.cos ((1 - p) * (1/2) * Real.pi)

/-- The `applyCrossfaderVolume(deckId, connections, deckVol)`: the value written
to the deck's `outputGain.gain.value`. -/
noncomputable def applyCrossfaderVolume (deck : DeckId) (p v : ℝ) : ℝ :=
  match deck with
  | .A => v * crossfaderMultA p
  | .B => v * crossfaderMultB p

/-- The mix-bus inputs (crossfader position, both fader volumes) together
with the two deck-output gains last written by the effect. -/
structure MixerState where
  pos : ℝ
  volA : ℝ
  volB : ℝ
  gainA : ℝ
  gainB : ℝ

/-- Body of the crossfader `useEffect`: recompute both output gains from
the current inputs. -/
noncomputable def recomputeGains (s : MixerState) : MixerState :=
  { s with
    gainA := applyCrossfaderVolume .A s.pos s.volA
    gainB := applyCrossfaderVolume .B s.pos s.volB }

/-- The `setCrossfaderPosition` intent followed by the effect run it triggers. -/
noncomputable def setCrossfader (p : ℝ) (s : MixerState) : MixerState :=
  recomputeGains { s with pos := p }

/-- Deck-A fader change followed by the effect run it triggers. -/
noncomputable def setFaderVolumeA (v : ℝ) (s : MixerState) : MixerState :=
  recomputeGains { s with volA := v }

/-- Deck-B fader change followed by the effect run it triggers. -/
noncomputable def setFaderVolumeB (v : ℝ) (s : MixerState) : MixerState :=
  recomputeGains { s with volB := v }

/-! ## App-level deck controller (App.tsx) -/

/-- The slice of a `Track` that the live-input toggle manipulates:
`LIVE_INPUT_TRACK` is the placeholder with `id: 'live-input'` and
`duration: 0` (App.tsx lines 43–50). -/
structure TrackRef where
  id : String
  duration : ℚ
  deriving DecidableEq

/-- The placeholder track substituted for an empty deck on live-input
activation. -/
def LIVE_INPUT_TRACK : TrackRef := { id := "live-input", duration := 0 }

/-- The per-deck UI state fields read and written by
`handleToggleLiveInput` (App.tsx lines 713–753). `connectionsId` models
`playerConnectionsRef.current`, tagged by the track id the chain was
created for. -/
structure AppDeck where
  track : Option TrackRef
  isLiveInput : Bool
  isPlaying : Bool
  connectionsId : Option String
  deriving DecidableEq

/-- The `handleToggleLiveInput(deckId)` on its success path: enabling on a deck
with no connections first creates a chain for `LIVE_INPUT_TRACK.id` and
substitutes the placeholder track; disabling only clears the
`isLiveInput` flag. -/
def handleToggleLiveInput (d : AppDeck) : AppDeck :=
  if d.isLiveInput = false then
    let d1 :=
      if d.connectionsId = none then
        { d with
          connectionsId := some LIVE_INPUT_TRACK.id
          track := some LIVE_INPUT_TRACK }
      else d
    { d1 with isLiveInput := true, isPlaying := false }
  else
    { d with isLiveInput := false }

/-- Outcome of delivering a finished recording to the sampler slots
(`handleStopRecording`, App.tsx lines 663–684): the updated slot array,
whether the slots-full error (`alert`) was raised, and the ids passed to
`disposeSample`. -/
structure RecordingDelivery where
  slots : List (Option String)
  slotsFullError : Bool
  disposedIds : List String
  deriving DecidableEq

/-- The state-update body of `handleStopRecording` once a recorded sample
exists: find the first empty slot (`findIndex(s => s === null)`); if one
exists, place the sample there (the guarded inner `disposeSample` is dead:
the found slot is empty); otherwise raise the slots-full alert and dispose
the candidate sample. -/
def placeRecordedSample (slots : List (Option String)) (recId : String) : RecordingDelivery :=
  match slots.findIdx? (fun s => s = none) with
  | some i =>
      let disposed := match slots.getD i none with
        | some old => [old]
        | none => []
      { slots := slots.set i (some recId)
        slotsFullError := false
        disposedIds := disposed }
  | none =>
      { slots := slots
        slotsFullError := true
        disposedIds := [recId] }

/-- The per-deck UI fields involved in the load-time tempo
synchronization of `loadTrackIntoDeck` (App.tsx lines 182–266). -/
structure DeckSync where
  trackBpm : Option ℚ
  isPlaying : Bool
  playbackRate : ℚ
  deriving DecidableEq

/-- The state written to the loading deck by `loadTrackIntoDeck` on
success (App.tsx lines 225–234): new track, stopped, playback rate reset
to 1. -/
def loadedDeckSync (newBpm : Option ℚ) : DeckSync :=
  { trackBpm := newBpm, isPlaying := false, playbackRate := 1 }

/-- The BPM-synchronization branch of `loadTrackIntoDeck` (App.tsx lines
250–258) as it acts on the *other* deck: when the loaded track has a
truthy positive bpm and the other deck is playing a track with a truthy
positive bpm, the other deck's playback rate becomes `bpmX / bpmY`;
otherwise the other deck is untouched. -/
def syncOtherDeck (newBpm : Option ℚ) (other : DeckSync) : DeckSync :=
  match newBpm with
  | some bx =>
      if 0 < bx then
        match other.trackBpm with
        | some byy =>
            if other.isPlaying ∧ 0 < byy then
              { other with playbackRate := bx / byy }
            else other
        | none => other
      else other
  | none => other

/-- The full effect of a successful `loadTrackIntoDeck` on the pair
(loading deck, other deck): the loading deck is rebuilt with rate 1 and
the other deck passes through the synchronization branch. -/
def loadTrackIntoDeck (newBpm : Option ℚ) (other : DeckSync) : DeckSync × DeckSync :=
  (loadedDeckSync newBpm, syncOtherDeck newBpm other)

/-! ## Audio engine state (part_006, `audioServiceState` and its operations) -/

/-- A decibel value, with `-Infinity` (the loop-roll mute, `gainToDb 0`)
as a separate constructor. -/
inductive Db where
  | neginf : Db
  | val : ℝ → Db

/-- The `Tone.gainToDb(gain) = 20 * log10(gain)`, which is `-Infinity` at
gain `0` (the engine only ever passes non-negative gains). -/
noncomputable def gainToDb (g : ℝ) : Db :=
  if g ≤ 0 then Db.neginf else Db.val (20 * Real.logb 10 g)

/-- The `Tone.Midi(m).toFrequency() = 440 · 2^((m − 69)/12)`. -/
noncomputable def midiToFrequency (m : ℝ) : ℝ := 440 * (2 : ℝ) ^ ((m - 69) / 12)

/-- The sample pitch-to-rate mapping
`Tone.Midi(60 + pitch).toFrequency() / Tone.Midi(60).toFrequency()`. -/
noncomputable def pitchToRate (pitch : ℝ) : ℝ :=
  midiToFrequency (60 + pitch) / midiToFrequency 60

/-- The `Tone.Player` transport state: `'stopped'` or `'started'`. -/
inductive PlayerState where
  | stopped : PlayerState
  | started : PlayerState
  deriving DecidableEq

/-- The per-deck signal chain (`PlayerConnections` in part_006): the
fields of its nodes that the modelled operations read or write. The
`playerOffset` records the buffer offset the main player last started
from. -/
structure PlayerConnections where
  playerVolume : Db
  playerState : PlayerState
  playerOffset : ℝ
  playerBufferLoaded : Bool
  playbackRate : ℝ
  outputGain : ℝ
  eqLow : ℝ
  eqMid : ℝ
  eqHigh : ℝ
  filterFreq : ℝ
  filterQ : ℝ
  reverbWet : ℝ

/-- The `Tone.Transport`: a counter of event ids and the registered repeating
events, each tagged with the deck/track id whose loop roll scheduled it. -/
structure Transport where
  nextEventId : ℕ
  events : List (ℕ × String)

/-- One sample voice (a `Tone.Player` created by `playSample`): disposal
removes the voice from the engine's voice list. -/
structure Voice where
  vid : ℕ
  sampleId : String
  isLoop : Bool
  state : PlayerState
  volume : Db
  rate : ℝ

/-- The sample fields `playSample` reads (`Sample` in types.ts). -/
inductive SampleMode where
  | oneShot : SampleMode
  | loop : SampleMode
  deriving DecidableEq

structure SampleRef where
  id : String
  bufferLoaded : Bool
  mode : SampleMode
  volume : ℝ
  pitch : ℝ

/-- The module-level `audioServiceState` of part_006, plus the transport,
the set of live voices and a fresh-voice counter (standing for object
identity of the `Tone.Player`s the source allocates). -/
structure AudioServiceState where
  activePlayers : List (String × PlayerConnections)
  masterGain : ℝ
  sampleBufferCache : List String
  activeSamplePlayers : List (String × ℕ)
  deckRecorders : List String
  loopRollTransportEvents : List (String × ℕ)
  loopRollOriginalPositions : List (String × ℝ)
  transport : Transport
  voices : List Voice
  nextVoiceId : ℕ

/-- Replace the connections stored for `tid`. -/
def setConnections (tid : String) (c : PlayerConnections) (s : AudioServiceState) :
    AudioServiceState :=
  { s with activePlayers := aset tid c s.activePlayers }

/-- The `playTrack(trackId)` (part_006 lines 308–314): start the player only
if connections exist, the buffer is loaded and it is not already started.
`player.start()` begins playback at the start of the (looping) buffer. -/
def playTrack (tid : String) (s : AudioServiceState) : AudioServiceState :=
  match alookup tid s.activePlayers with
  | none => s
  | some c =>
      if c.playerBufferLoaded = true ∧ c.playerState ≠ .started then
        setConnections tid { c with playerState := .started, playerOffset := 0 } s
      else s

/-- The `pauseTrack(trackId)` (lines 316–322): a hard `player.stop()` when
started. -/
def pauseTrack (tid : String) (s : AudioServiceState) : AudioServiceState :=
  match alookup tid s.activePlayers with
  | none => s
  | some c =>
      if c.playerState = .started then
        setConnections tid { c with playerState := .stopped } s
      else s

/-- The `stopTrack(trackId)` (lines 324–330): unconditional `player.stop()`
when connections exist. -/
def stopTrack (tid : String) (s : AudioServiceState) : AudioServiceState :=
  match alookup tid s.activePlayers with
  | none => s
  | some c => setConnections tid { c with playerState := .stopped } s

/-- The `seekTo(trackId, time)` (lines 332–337): `player.seek(time)` when the
buffer is loaded. -/
def seekTo (tid : String) (time : ℝ) (s : AudioServiceState) : AudioServiceState :=
  match alookup tid s.activePlayers with
  | none => s
  | some c =>
      if c.playerBufferLoaded = true then
        setConnections tid { c with playerOffset := time } s
      else s

/-- The `setPlaybackRate(trackId, rate)` (lines 339–345). -/
def setPlaybackRate (tid : String) (rate : ℝ) (s : AudioServiceState) : AudioServiceState :=
  match alookup tid s.activePlayers with
  | none => s
  | some c => setConnections tid { c with playbackRate := rate } s

/-- The `setPlayerVolume(trackId, volume)` (lines 399–404): writes the deck's
`outputGain.gain.value`. -/
def setPlayerVolume (tid : String) (volume : ℝ) (s : AudioServiceState) : AudioServiceState :=
  match alookup tid s.activePlayers with
  | none => s
  | some c => setConnections tid { c with outputGain := volume } s

/-- The `updateFluxFX(trackId, x, y)` (lines 287–305): exponential filter
frequency `100 · 200^x` over 100 Hz–20 kHz, reverb wet `y · 0.5`, filter
resonance `1 + y · 19`. -/
noncomputable def updateFluxFX (tid : String) (x y : ℝ) (s : AudioServiceState) :
    AudioServiceState :=
  match alookup tid s.activePlayers with
  | none => s
  | some c =>
      setConnections tid
        { c with
          filterFreq := 100 * (20000 / 100 : ℝ) ^ x
          reverbWet := y * (1/2)
          filterQ := 1 + y * 19 } s

/-- The `disposePlayerConnections(trackId)` (lines 447–460): dispose every
node of the chain (modelled by dropping the connections record) and
remove the map entry; a no-op when no connections exist. -/
def disposePlayerConnections (tid : String) (s : AudioServiceState) : AudioServiceState :=
  match alookup tid s.activePlayers with
  | none => s
  | some _ => { s with activePlayers := aerase tid s.activePlayers }

/-- The `stopLoopRoll(trackId)` (lines 557–576): clear the scheduled transport
event if any; if connections exist, write
`gainToDb(outputGain.gain.value)` to the main player's volume and — if an
original position was captured — hard-restart the player at it
(`player.start(0, originalPosition)`); finally drop the stored position. -/
noncomputable def stopLoopRoll (tid : String) (s : AudioServiceState) : AudioServiceState :=
  let originalPosition := alookup tid s.loopRollOriginalPositions
  let s1 :=
    match alookup tid s.loopRollTransportEvents with
    | some eventId =>
        { s with
          transport := { s.transport with
            events := s.transport.events.filter (fun e => e.1 ≠ eventId) }
          loopRollTransportEvents := aerase tid s.loopRollTransportEvents }
    | none => s
  let s2 :=
    match alookup tid s1.activePlayers with
    | some c =>
        let c1 := { c with playerVolume := gainToDb c.outputGain }
        let c2 :=
          match originalPosition with
          | some p => { c1 with playerState := .started, playerOffset := p }
          | none => c1
        setConnections tid c2 s1
    | none => s1
  { s2 with loopRollOriginalPositions := aerase tid s2.loopRollOriginalPositions }

/-- The `startLoopRoll(trackId, interval)` (lines 526–555): a no-op unless the
deck's player is started; otherwise stop any prior roll, capture the
player's current position `t0` (passed in, the source reads
`player.currentTime`), mute the main player at `-Infinity`, create the
overlay loop player and register the repeating transport event. -/
noncomputable def startLoopRoll (tid : String) (t0 : ℝ) (s : AudioServiceState) :
    AudioServiceState :=
  match alookup tid s.activePlayers with
  | none => s
  | some c =>
      if c.playerState ≠ .started then s
      else
        let s1 := stopLoopRoll tid s
        let s2 :=
          { s1 with loopRollOriginalPositions := aset tid t0 s1.loopRollOriginalPositions }
        let s3 :=
          match alookup tid s2.activePlayers with
          | some c' => setConnections tid { c' with playerVolume := Db.neginf } s2
          | none => s2
        let eventId := s3.transport.nextEventId
        { s3 with
          transport := { nextEventId := eventId + 1
                         events := (eventId, tid) :: s3.transport.events }
          loopRollTransportEvents := aset tid eventId s3.loopRollTransportEvents }

/-- The `playSample(sample)` (lines 355–388): no-op if the buffer is not
loaded; if a started voice exists for the id *and* the mode is loop, that
voice is stopped and disposed; then a fresh voice is started and becomes
the map entry for the id (in both modes). -/
noncomputable def playSample (smp : SampleRef) (s : AudioServiceState) : AudioServiceState :=
  if smp.bufferLoaded = false then s
  else
    let s1 : AudioServiceState :=
      match alookup smp.id s.activeSamplePlayers with
      | some vid =>
          match s.voices.find? (fun v => v.vid = vid) with
          | some v =>
              if v.state = .started ∧ smp.mode = .loop then
                { s with
                  voices := s.voices.filter (fun w => w.vid ≠ vid)
                  activeSamplePlayers := aerase smp.id s.activeSamplePlayers }
              else s
          | none => s
      | none => s
    let newVoice : Voice :=
      { vid := s1.nextVoiceId
        sampleId := smp.id
        isLoop := smp.mode = SampleMode.loop
        state := .started
        volume := gainToDb smp.volume
        rate := pitchToRate smp.pitch }
    { s1 with
      voices := s1.voices ++ [newVoice]
      nextVoiceId := s1.nextVoiceId + 1
      activeSamplePlayers := aset smp.id newVoice.vid s1.activeSamplePlayers }

/-- The `stopSample(sampleId)` (lines 390–397): stop and dispose the voice the
map currently points to, if it exists and is started. -/
def stopSample (sid : String) (s : AudioServiceState) : AudioServiceState :=
  match alookup sid s.activeSamplePlayers with
  | none => s
  | some vid =>
      match s.voices.find? (fun v => v.vid = vid) with
      | some v =>
          if v.state = .started then
            { s with
              voices := s.voices.filter (fun w => w.vid ≠ vid)
              activeSamplePlayers := aerase sid s.activeSamplePlayers }
          else s
      | none => s

/-! ## Shared concrete states for witnesses and counterexamples -/

/-- An engine state with no chains, voices, recorders or scheduled events. -/
def emptyEngine : AudioServiceState :=
  { activePlayers := []
    masterGain := 1
    sampleBufferCache := []
    activeSamplePlayers := []
    deckRecorders := []
    loopRollTransportEvents := []
    loopRollOriginalPositions := []
    transport := { nextEventId := 0, events := [] }
    voices := []
    nextVoiceId := 0 }

/-- A freshly created, playing signal chain with the default player volume
(0 dB) and an output gain of 1/2 (for instance fader 0.707… at centre
crossfade, rounded here to a rational for concreteness). -/
noncomputable def rollConnections : PlayerConnections :=
  { playerVolume := Db.val 0
    playerState := .started
    playerOffset := 0
    playerBufferLoaded := true
    playbackRate := 1
    outputGain := 1/2
    eqLow := 0
    eqMid := 0
    eqHigh := 0
    filterFreq := 20000
    filterQ := 1
    reverbWet := 0 }

/-- An engine state in which deck `"A"` is playing through
`rollConnections` and no loop roll is active yet. -/
noncomputable def rollState : AudioServiceState :=
  { emptyEngine with activePlayers := [("A", rollConnections)] }

/-! ## Claim theorems -/

/-- Bridge lemma: `jsFloor` coincides with Mathlib's floor on `ℚ`. -/
theorem jsFloor_eq_floor (q : ℚ) : jsFloor q = ⌊q⌋ := rfl

/-- Rounding a natural number is the identity. -/
theorem jsRound_natCast (n : ℕ) : jsRound ((n : ℚ)) = n := by
  rw [jsRound, jsFloor_eq_floor]
  have hfl : ⌊(n : ℚ) + 1/2⌋ = (n : ℤ) := by
    rw [Int.floor_eq_iff]
    push_cast
    norm_num
  rw [hfl, Int.toNat_natCast]

/-- On an empty channel every autocorrelation bucket is the `fill(0)`
value. -/
theorem correlationAt_nil (nA minP maxP lag : ℕ) :
    correlationAt [] nA minP maxP lag = 0 := by
  rw [correlationAt]
  split_ifs with h
  · simp
  · rfl

/-- When every correlation is zero and the scan range `[60, maxP)` is
non-empty, the selection loop keeps its very first index: lag 60 beats the
initial `-Infinity` and nothing afterwards exceeds zero strictly. -/
theorem scanBestPeriod_const_zero (corr : ℕ → ℚ) (hcz : ∀ i, corr i = 0)
    (maxP : ℕ) (h : 60 < maxP) : scanBestPeriod corr maxP = 60 := by
  rw [scanBestPeriod]
  have hmp : maxP - 60 = (maxP - 61) + 1 := by omega
  rw [hmp, List.range'_succ, List.foldl_cons]
  have hstep1 :
      (match ((none : Option ℚ), 0).1 with
        | none => (some (corr 60), 60)
        | some m => if corr 60 > m then (some (corr 60), 60) else ((none : Option ℚ), 0)) =
      (some (corr 60), 60) := rfl
  rw [hstep1]
  have inv : ∀ (l : List ℕ),
      (l.foldl
        (fun st i =>
          match st.1 with
          | none => (some (corr i), i)
          | some m => if corr i > m then (some (corr i), i) else st)
        (some (corr 60), 60)) = (some (corr 60), 60) := by
    intro l
    induction l with
    | nil => rfl
    | cons j t ih =>
        rw [List.foldl_cons]
        have hj : (match (some (corr 60), 60).1 with
            | none => (some (corr j), j)
            | some m => if corr j > m then (some (corr j), j) else (some (corr 60), 60)) =
          (some (corr 60), 60) := by
          simp only [hcz j, hcz 60]
          norm_num
        rw [hj, ih]
  rw [inv]

/-- Claim C2: `detectBPM` does *not* implement the claimed selection over the
60–200 BPM lag range with a 120 fallback for degenerate buffers: the
selection loop starts at the BPM constant `60` used as a *lag index*
(`for (let i = MIN_BPM; …)` instead of `MIN_PERIOD_SAMPLES`), so on a
degenerate (empty, hence all-zero) buffer at any sample rate above 60 —
including the realistic 8000 or 44100 — every correlation is the `fill(0)`
value, lag 60 wins against the initial `-Infinity`, and the function
returns `round(60·sampleRate/60) = sampleRate`, far outside 60–200 BPM and
never the claimed fallback 120. -/
theorem detectBPM_degenerate_returns_sampleRate (sr : ℕ) (h : 60 < sr) :
    detectBPM sr [] = sr := by
  rw [detectBPM]
  simp only [List.length_nil, Nat.cast_zero]
  have hmax : sr * 60 / 60 = sr := by omega
  rw [hmax]
  rw [scanBestPeriod_const_zero _ (fun lag => correlationAt_nil _ _ _ lag) sr h]
  rw [if_neg (by omega)]
  have hdiv : (60 * (sr : ℚ)) / ((60 : ℕ) : ℚ) = (sr : ℚ) := by
    push_cast
    field_simp
  rw [hdiv, jsRound_natCast]

/-- Witness for `detectBPM_degenerate_returns_sampleRate` at sample rate
300 (evaluated by the kernel, confirming the symbolic proof). -/
theorem detectBPM_degenerate_returns_sampleRate_witness : detectBPM 300 [] = 300 :=
  detectBPM_degenerate_returns_sampleRate 300 (by decide)

/-- Claim C6: Delivering a recorded sample to a sampler whose 8 slots are all
occupied raises the slots-full error, leaves every slot unchanged and
disposes (discards) the candidate sample. -/
theorem placeRecordedSample_slots_full (slots : List (Option String)) (recId : String)
    (hlen : slots.length = 8) (hfull : ∀ o ∈ slots, o ≠ none) :
    placeRecordedSample slots recId =
      { slots := slots, slotsFullError := true, disposedIds := [recId] } := by
  have hidx : slots.findIdx? (fun s => s = none) = none := by
    rw [List.findIdx?_eq_none_iff]
    intro o ho
    simpa using hfull o ho
  simp [placeRecordedSample, hidx]

/-- Witness for `placeRecordedSample_slots_full` at a concrete full
sampler. -/
theorem placeRecordedSample_slots_full_witness :
    placeRecordedSample
        [some "s0", some "s1", some "s2", some "s3", some "s4", some "s5", some "s6", some "s7"]
        "rec" =
      { slots := [some "s0", some "s1", some "s2", some "s3",
                  some "s4", some "s5", some "s6", some "s7"]
        slotsFullError := true
        disposedIds := ["rec"] } :=
  placeRecordedSample_slots_full _ _ (by decide) (by decide)

/-- Claim C7: When a deck finishes loading a track with known positive bpm
`bx` while the other deck is playing a track with known positive bpm `byy`,
the single load-time transition sets the other deck's playback rate to
`bx / byy` (leaving its track and playing flag alone) and resets the
loading deck's own playback rate to 1. -/
theorem loadTrackIntoDeck_bpm_sync (other : DeckSync) (bx byy : ℚ)
    (hbx : 0 < bx) (htb : other.trackBpm = some byy) (hby : 0 < byy)
    (hp : other.isPlaying = true) :
    (loadTrackIntoDeck (some bx) other).1.playbackRate = 1 ∧
    (loadTrackIntoDeck (some bx) other).2.playbackRate = bx / byy ∧
    (loadTrackIntoDeck (some bx) other).2.trackBpm = other.trackBpm ∧
    (loadTrackIntoDeck (some bx) other).2.isPlaying = other.isPlaying := by
  simp [loadTrackIntoDeck, loadedDeckSync, syncOtherDeck, htb, hbx, hby, hp]

/-- Witness for `loadTrackIntoDeck_bpm_sync`: loading a 128-bpm track
against a deck playing a 120-bpm track at rate 1. -/
theorem loadTrackIntoDeck_bpm_sync_witness :
    (loadTrackIntoDeck (some 128) ⟨some 120, true, 1⟩).1.playbackRate = 1 ∧
    (loadTrackIntoDeck (some 128) ⟨some 120, true, 1⟩).2.playbackRate = 128 / 120 ∧
    (loadTrackIntoDeck (some 128) ⟨some 120, true, 1⟩).2.trackBpm =
      (⟨some 120, true, 1⟩ : DeckSync).trackBpm ∧
    (loadTrackIntoDeck (some 128) ⟨some 120, true, 1⟩).2.isPlaying =
      (⟨some 120, true, 1⟩ : DeckSync).isPlaying :=
  loadTrackIntoDeck_bpm_sync ⟨some 120, true, 1⟩ 128 120 (by norm_num) rfl (by norm_num) rfl

/-- Claim C8, counterexample: Enabling then disabling live input on an empty
deck does *not* return the deck to the Empty state: the placeholder
zero-duration track remains loaded (`track ≠ none`), because the disable
branch of `handleToggleLiveInput` only clears the `isLiveInput` flag. -/
theorem toggleLiveInput_off_leaves_placeholder :
    (handleToggleLiveInput (handleToggleLiveInput
        { track := none, isLiveInput := false, isPlaying := false,
          connectionsId := none })).track ≠ none := by
  decide

/-- Claim C8, amended: Enabling live input on an empty deck creates a chain
bound to the placeholder zero-duration "Live Input" track; disabling it
again merely clears the live-input flag, leaving the deck bound to the
placeholder track and chain (not in the Empty state). -/
theorem handleToggleLiveInput_empty_deck_amended (d : AppDeck)
    (ht : d.track = none) (hc : d.connectionsId = none) (hl : d.isLiveInput = false) :
    (handleToggleLiveInput d).track = some LIVE_INPUT_TRACK ∧
    (handleToggleLiveInput d).connectionsId = some LIVE_INPUT_TRACK.id ∧
    LIVE_INPUT_TRACK.duration = 0 ∧
    (handleToggleLiveInput d).isLiveInput = true ∧
    (handleToggleLiveInput d).isPlaying = false ∧
    (handleToggleLiveInput (handleToggleLiveInput d)).isLiveInput = false ∧
    (handleToggleLiveInput (handleToggleLiveInput d)).track = some LIVE_INPUT_TRACK ∧
    (handleToggleLiveInput (handleToggleLiveInput d)).connectionsId =
      some LIVE_INPUT_TRACK.id := by
  simp [handleToggleLiveInput, ht, hc, hl, LIVE_INPUT_TRACK]

/-- Witness for `handleToggleLiveInput_empty_deck_amended` at the concrete
empty deck. -/
theorem handleToggleLiveInput_empty_deck_amended_witness :
    (handleToggleLiveInput
        { track := none, isLiveInput := false, isPlaying := false,
          connectionsId := none }).track = some LIVE_INPUT_TRACK ∧
    (handleToggleLiveInput
        { track := none, isLiveInput := false, isPlaying := false,
          connectionsId := none }).connectionsId = some LIVE_INPUT_TRACK.id ∧
    LIVE_INPUT_TRACK.duration = 0 ∧
    (handleToggleLiveInput
        { track := none, isLiveInput := false, isPlaying := false,
          connectionsId := none }).isLiveInput = true ∧
    (handleToggleLiveInput
        { track := none, isLiveInput := false, isPlaying := false,
          connectionsId := none }).isPlaying = false ∧
    (handleToggleLiveInput (handleToggleLiveInput
        { track := none, isLiveInput := false, isPlaying := false,
          connectionsId := none })).isLiveInput = false ∧
    (handleToggleLiveInput (handleToggleLiveInput
        { track := none, isLiveInput := false, isPlaying := false,
          connectionsId := none })).track = some LIVE_INPUT_TRACK ∧
    (handleToggleLiveInput (handleToggleLiveInput
        { track := none, isLiveInput := false, isPlaying := false,
          connectionsId := none })).connectionsId = some LIVE_INPUT_TRACK.id :=
  handleToggleLiveInput_empty_deck_amended
    { track := none, isLiveInput := false, isPlaying := false, connectionsId := none }
    rfl rfl rfl

/-- Claim C10: Every modelled per-deck engine operation invoked with an id
for which no signal chain exists in `activePlayers` returns the state
unchanged (the functions are total, so "returns normally without
throwing" holds by construction). -/
theorem engine_ops_noop_without_chain (s : AudioServiceState) (tid : String)
    (t r v x y : ℝ) (h : alookup tid s.activePlayers = none) :
    playTrack tid s = s ∧ pauseTrack tid s = s ∧ stopTrack tid s = s ∧
    seekTo tid t s = s ∧ setPlaybackRate tid r s = s ∧
    setPlayerVolume tid v s = s ∧ updateFluxFX tid x y s = s := by
  refine ⟨?_, ?_, ?_, ?_, ?_, ?_, ?_⟩ <;>
    simp [playTrack, pauseTrack, stopTrack, seekTo, setPlaybackRate,
      setPlayerVolume, updateFluxFX, h]

/-- Bounds on `√2` used for the crossfader centre value: `1.414002 < √2`
(so `√2/2` is *not* within `1e-6` of `0.707`) and `√2 < 1.41422`. -/
theorem sqrt_two_bounds : (1.414002 : ℝ) < Real.sqrt 2 ∧ Real.sqrt 2 < 1.41422 := by
  have hs : Real.sqrt 2 ^ 2 = 2 := Real.sq_sqrt (by norm_num)
  have hnn : (0 : ℝ) ≤ Real.sqrt 2 := Real.sqrt_nonneg 2
  constructor
  · nlinarith [hs, hnn]
  · nlinarith [hs, hnn]

/-- The crossfader multipliers at centre position both equal `cos(π/4) = √2/2`. -/
theorem crossfaderMult_half : crossfaderMultA (1/2) = Real.sqrt 2 / 2 ∧
    crossfaderMultB (1/2) = Real.sqrt 2 / 2 := by
  constructor
  · rw [crossfaderMultA, show (1/2 : ℝ) * (1/2) * Real.pi = Real.pi / 4 by ring,
      Real.cos_pi_div_four]
  · rw [crossfaderMultB, show (1 - (1/2 : ℝ)) * (1/2) * Real.pi = Real.pi / 4 by ring,
      Real.cos_pi_div_four]

/-- Claim C1, counterexample: The claim's numeric parenthetical fails: at
`p = 0.5` the deck-A multiplier is `cos(π/4) = √2/2 ≈ 0.70710678`, which is
*not* within `1e-6` of `0.707` (the distance is ≈ `1.068e-4`). -/
theorem crossfader_half_not_within_1e6_of_0707 :
    ¬ (|crossfaderMultA (1/2) - 0.707| ≤ 1e-6) := by
  have h := crossfaderMult_half.1
  have hlb := sqrt_two_bounds.1
  rw [h, abs_le]
  intro ⟨_, hub⟩
  nlinarith [hlb, hub]

/-- Claim C1, amended: The crossfader effect writes
`faderVolume × cos(p·π/2)` to deck A's output gain and
`faderVolume × cos((1−p)·π/2)` to deck B's, rerunning whenever the
crossfader position or either fader volume changes; at `p = 0.5` the two
multipliers are equal, both `√2/2 ≈ 0.70711` — within `1.1e-4` (not `1e-6`)
of `0.707`. -/
theorem crossfader_law_amended (s : MixerState) (p v : ℝ) :
    (setCrossfader p s).gainA = s.volA * Real.cos (p * Real.pi / 2) ∧
    (setCrossfader p s).gainB = s.volB * Real.cos ((1 - p) * Real.pi / 2) ∧
    (setFaderVolumeA v s).gainA = v * Real.cos (s.pos * Real.pi / 2) ∧
    (setFaderVolumeA v s).gainB = s.volB * Real.cos ((1 - s.pos) * Real.pi / 2) ∧
    (setFaderVolumeB v s).gainA = s.volA * Real.cos (s.pos * Real.pi / 2) ∧
    (setFaderVolumeB v s).gainB = v * Real.cos ((1 - s.pos) * Real.pi / 2) ∧
    crossfaderMultA (1/2) = crossfaderMultB (1/2) ∧
    |crossfaderMultA (1/2) - 0.707| < 1.1e-4 := by
  have harg : ∀ a q r : ℝ, q = r → a * Real.cos q = a * Real.cos r := by
    intro a q r h
    rw [h]
  refine ⟨?_, ?_, ?_, ?_, ?_, ?_, ?_, ?_⟩
  · simp only [setCrossfader, recomputeGains, applyCrossfaderVolume, crossfaderMultA]
    exact harg _ _ _ (by ring)
  · simp only [setCrossfader, recomputeGains, applyCrossfaderVolume, crossfaderMultB]
    exact harg _ _ _ (by ring)
  · simp only [setFaderVolumeA, recomputeGains, applyCrossfaderVolume, crossfaderMultA]
    exact harg _ _ _ (by ring)
  · simp only [setFaderVolumeA, recomputeGains, applyCrossfaderVolume, crossfaderMultB]
    exact harg _ _ _ (by ring)
  · simp only [setFaderVolumeB, recomputeGains, applyCrossfaderVolume, crossfaderMultA]
    exact harg _ _ _ (by ring)
  · simp only [setFaderVolumeB, recomputeGains, applyCrossfaderVolume, crossfaderMultB]
    exact harg _ _ _ (by ring)
  · rw [crossfaderMult_half.1, crossfaderMult_half.2]
  · rw [crossfaderMult_half.1, abs_lt]
    have hlb := sqrt_two_bounds.1
    have hub := sqrt_two_bounds.2
    constructor
    · nlinarith [hlb]
    · nlinarith [hub]

/-- The source's per-bucket `if sample > max` loop computes the same value
as folding `max` over the rectified samples of the bucket. -/
theorem bucketPeak_eq_spec (d : List ℚ) (start e : ℕ) :
    bucketPeak d start e =
      ((List.range' start (e - start)).map (fun j => |d.getD j 0|)).foldl max 0 := by
  rw [bucketPeak, List.foldl_map]
  have hfun : (fun (m : ℚ) (j : ℕ) => let s := |d.getD j 0|; if s > m then s else m) =
      (fun (m : ℚ) (j : ℕ) => max m |d.getD j 0|) := by
    funext m j
    show (if |d.getD j 0| > m then |d.getD j 0| else m) = max m |d.getD j 0|
    rcases lt_or_ge m |d.getD j 0| with h | h
    · rw [if_pos h, max_eq_right (le_of_lt h)]
    · rw [if_neg (not_lt.2 h), max_eq_left h]
  rw [hfun]

/-- A `max`-fold never drops below its starting accumulator. -/
theorem le_foldl_max (l : List ℚ) (a : ℚ) : a ≤ l.foldl max a := by
  induction l generalizing a with
  | nil => exact le_refl a
  | cons x t ih => exact le_trans (le_max_left a x) (ih (max a x))

/-- A `max`-fold stays below any bound dominating the accumulator and every
element. -/
theorem foldl_max_le (l : List ℚ) (a b : ℚ) (ha : a ≤ b) (h : ∀ x ∈ l, x ≤ b) :
    l.foldl max a ≤ b := by
  induction l generalizing a with
  | nil => exact ha
  | cons x t ih =>
      exact ih (max a x) (max_le ha (h x (List.mem_cons_self x t)))
        (fun y hy => h y (List.mem_cons_of_mem x hy))

/-- Samples read through `getD` inherit a uniform magnitude bound from the
channel data (out-of-range reads give the default `0`). -/
theorem getD_abs_le_one (d : List ℚ) (h : ∀ x ∈ d, |x| ≤ 1) (j : ℕ) : |d.getD j 0| ≤ 1 := by
  by_cases hj : j < d.length
  · rw [List.getD_eq_getElem d 0 hj]
    exact h _ (List.getElem_mem hj)
  · rw [List.getD_eq_default d 0 (le_of_not_lt hj)]
    norm_num

/-- Samples read through `getD` from an all-zero channel are zero. -/
theorem getD_eq_zero (d : List ℚ) (h : ∀ x ∈ d, x = 0) (j : ℕ) : d.getD j 0 = 0 := by
  by_cases hj : j < d.length
  · rw [List.getD_eq_getElem d 0 hj]
    exact h _ (List.getElem_mem hj)
  · rw [List.getD_eq_default d 0 (le_of_not_lt hj)]

/-- Claim C5: `getWaveformPeaks` returns exactly 500 values; each value is
the maximum absolute sample magnitude of its equal-width bucket (the
spec-side `specBucketPeak`), is non-negative, and — for normalized PCM
data with `|x| ≤ 1` — at most 1; on an all-zero buffer the result is 500
zeros. -/
theorem getWaveformPeaks_props (d : List ℚ) (hrange : ∀ x ∈ d, |x| ≤ 1) :
    (getWaveformPeaks d).length = 500 ∧
    (∀ i, i < 500 →
      (getWaveformPeaks d).getD i 0 = specBucketPeak d i ∧
      0 ≤ (getWaveformPeaks d).getD i 0 ∧
      (getWaveformPeaks d).getD i 0 ≤ 1) ∧
    ((∀ x ∈ d, x = 0) → getWaveformPeaks d = List.replicate 500 0) := by
  have hlen : (getWaveformPeaks d).length = 500 := by
    simp [getWaveformPeaks]
  have hget : ∀ i, i < 500 → (getWaveformPeaks d).getD i 0 =
      bucketPeak d (i * (d.length / 500))
        (min (i * (d.length / 500) + d.length / 500) d.length) := by
    intro i hi
    have hi' : i < (getWaveformPeaks d).length := by rw [hlen]; exact hi
    rw [List.getD_eq_getElem _ 0 hi']
    simp [getWaveformPeaks]
  refine ⟨hlen, fun i hi => ?_, fun hzero => ?_⟩
  · refine ⟨?_, ?_, ?_⟩
    · rw [hget i hi, specBucketPeak, bucketPeak_eq_spec]
    · rw [hget i hi, bucketPeak_eq_spec]
      exact le_foldl_max _ 0
    · rw [hget i hi, bucketPeak_eq_spec]
      refine foldl_max_le _ 0 1 (by norm_num) ?_
      intro x hx
      obtain ⟨j, _, rfl⟩ := List.mem_map.1 hx
      exact getD_abs_le_one d hrange j
  · refine List.eq_replicate_iff.2 ⟨by simpa using hlen, ?_⟩
    intro b hb
    obtain ⟨i, hi, rfl⟩ := List.mem_map.1 hb
    rw [bucketPeak_eq_spec]
    refine le_antisymm ?_ (le_foldl_max _ 0)
    refine foldl_max_le _ 0 0 (le_refl 0) ?_
    intro x hx
    obtain ⟨j, _, rfl⟩ := List.mem_map.1 hx
    rw [getD_eq_zero d hzero j]
    norm_num

/-- Witness for `getWaveformPeaks_props` on a concrete two-sample buffer. -/
theorem getWaveformPeaks_props_witness :
    (getWaveformPeaks [1, -1/2]).length = 500 ∧
    (∀ i, i < 500 →
      (getWaveformPeaks [1, -1/2]).getD i 0 = specBucketPeak [1, -1/2] i ∧
      0 ≤ (getWaveformPeaks [1, -1/2]).getD i 0 ∧
      (getWaveformPeaks [1, -1/2]).getD i 0 ≤ 1) ∧
    ((∀ x ∈ ([1, -1/2] : List ℚ), x = 0) →
      getWaveformPeaks [1, -1/2] = List.replicate 500 0) :=
  getWaveformPeaks_props [1, -1/2] (by
    intro x hx
    rcases List.mem_cons.1 hx with h | h
    · rw [h, abs_le]; norm_num
    · rcases List.mem_cons.1 h with h2 | h2
      · rw [h2, abs_le]; norm_num
      · simp at h2)

/-- Erasing a key that is absent leaves the association list unchanged. -/
theorem aerase_eq_of_alookup_none {α : Type} (k : String) (l : List (String × α))
    (h : alookup k l = none) : aerase k l = l := by
  induction l with
  | nil => rfl
  | cons p t ih =>
    obtain ⟨k₀, v⟩ := p
    by_cases hk : k₀ = k
    · rw [alookup_cons, if_pos hk] at h
      exact absurd h (by simp)
    · rw [alookup_cons, if_neg hk] at h
      rw [show aerase k ((k₀, v) :: t) = (k₀, v) :: aerase k t by simp [aerase, hk], ih h]

/-- On positive gains, `gainToDb` takes its logarithmic branch. -/
theorem gainToDb_of_pos (g : ℝ) (hg : 0 < g) :
    gainToDb g = Db.val (20 * Real.logb 10 g) := by
  rw [gainToDb, if_neg (not_le.2 hg)]

/-- The `gainToDb (1/2)` is a strictly negative decibel value, in particular
different from the 0 dB default player volume. -/
theorem gainToDb_half_ne_zero_db : gainToDb (1/2 : ℝ) ≠ Db.val 0 := by
  rw [gainToDb_of_pos _ (by norm_num)]
  intro h
  have hlog : Real.logb 10 (1/2 : ℝ) < 0 :=
    Real.logb_neg (by norm_num) (by norm_num) (by norm_num)
  have h20 : (20 : ℝ) * Real.logb 10 (1/2 : ℝ) = 0 := Db.val.inj h
  nlinarith [hlog]

/-- Claim C3, counterexample: Stopping a loop roll does *not* restore the
main player's volume to its pre-roll value: on a deck whose player was at
the 0 dB default with output gain 1/2, the volume after
`startLoopRoll`/`stopLoopRoll` is `gainToDb(outputGain) = gainToDb(1/2) ≠ 0 dB`. -/
theorem stopLoopRoll_volume_not_preroll :
    (alookup "A" ((stopLoopRoll "A" (startLoopRoll "A" 2 rollState)).activePlayers)).map
        (fun c => c.playerVolume) ≠
      (alookup "A" rollState.activePlayers).map (fun c => c.playerVolume) := by
  have hval : (alookup "A" rollState.activePlayers).map (fun c => c.playerVolume) =
      some (Db.val 0) := by
    simp [rollState, rollConnections, emptyEngine, alookup]
  rw [hval]
  have hfin : (alookup "A"
      ((stopLoopRoll "A" (startLoopRoll "A" 2 rollState)).activePlayers)).map
        (fun c => c.playerVolume) = some (gainToDb (1/2 : ℝ)) := by
    simp [startLoopRoll, stopLoopRoll, rollState, rollConnections, emptyEngine,
      setConnections, aset, aerase, alookup]
  rw [hfin]
  intro h
  exact gainToDb_half_ne_zero_db (Option.some.inj h)

/-- Claim C3, amended: Stopping an active loop roll cancels the scheduled
transport repeat event and restarts the main player exactly at the
captured position `t0` (not `t0` plus elapsed wall time), but the player's
volume is restored to `gainToDb` of the deck's *current output gain* —
which equals the pre-roll player volume only when that conversion happens
to match it (e.g. output gain 1 against a 0 dB player). -/
theorem stopLoopRoll_amended (s : AudioServiceState) (tid : String)
    (c : PlayerConnections) (t0 : ℝ)
    (hc : alookup tid s.activePlayers = some c)
    (hst : c.playerState = .started)
    (hev : alookup tid s.loopRollTransportEvents = none)
    (hpos : alookup tid s.loopRollOriginalPositions = none)
    (htr : s.transport.events.all (fun e => e.2 ≠ tid) = true) :
    (alookup tid ((stopLoopRoll tid (startLoopRoll tid t0 s)).activePlayers)).map
        (fun c' => c'.playerOffset) = some t0 ∧
    (alookup tid ((stopLoopRoll tid (startLoopRoll tid t0 s)).activePlayers)).map
        (fun c' => c'.playerState) = some PlayerState.started ∧
    (alookup tid ((stopLoopRoll tid (startLoopRoll tid t0 s)).activePlayers)).map
        (fun c' => c'.playerVolume) = some (gainToDb c.outputGain) ∧
    alookup tid ((stopLoopRoll tid (startLoopRoll tid t0 s)).loopRollTransportEvents) = none ∧
    alookup tid ((stopLoopRoll tid (startLoopRoll tid t0 s)).loopRollOriginalPositions) =
      none ∧
    ((stopLoopRoll tid (startLoopRoll tid t0 s)).transport.events.all
        (fun e => e.2 ≠ tid)) = true := by
  have hne : (PlayerState.started ≠ PlayerState.started) = False := by simp
  have hstart : startLoopRoll tid t0 s =
      { s with
        activePlayers := aset tid
          { c with playerVolume := Db.neginf }
          (aset tid { c with playerVolume := gainToDb c.outputGain } s.activePlayers)
        loopRollOriginalPositions := aset tid t0 s.loopRollOriginalPositions
        transport := { nextEventId := s.transport.nextEventId + 1
                       events := (s.transport.nextEventId, tid) :: s.transport.events }
        loopRollTransportEvents :=
          aset tid s.transport.nextEventId s.loopRollTransportEvents } := by
    rw [startLoopRoll, hc, hst]
    simp only [hne, ne_eq, not_true_eq_false, if_false, ite_false]
    rw [stopLoopRoll, hev, hpos, hc]
    simp only [setConnections]
    rw [aerase_eq_of_alookup_none tid s.loopRollOriginalPositions hpos]
    simp [alookup_aset_self, hst]
  rw [hstart]
  refine ⟨?_, ?_, ?_, ?_, ?_, ?_⟩
  · simp [stopLoopRoll, setConnections, alookup_aset_self, alookup_aerase_self]
  · simp [stopLoopRoll, setConnections, alookup_aset_self, alookup_aerase_self]
  · simp [stopLoopRoll, setConnections, alookup_aset_self, alookup_aerase_self]
  · simp [stopLoopRoll, setConnections, alookup_aset_self, alookup_aerase_self]
  · simp [stopLoopRoll, setConnections, alookup_aset_self, alookup_aerase_self]
  · simp only [stopLoopRoll, setConnections, alookup_aset_self, alookup_aerase_self]
    rw [List.all_eq_true] at htr ⊢
    intro e he
    rcases List.mem_filter.1 he with ⟨hmem, hpred⟩
    rcases List.mem_cons.1 hmem with heq | hmem'
    · rw [heq] at hpred
      simp at hpred
    · exact htr e hmem'

/-- Witness for `stopLoopRoll_amended`: deck `"A"` of `rollState` rolling
from position 2. -/
theorem stopLoopRoll_amended_witness :
    (alookup "A" ((stopLoopRoll "A" (startLoopRoll "A" 2 rollState)).activePlayers)).map
        (fun c' => c'.playerOffset) = some 2 ∧
    (alookup "A" ((stopLoopRoll "A" (startLoopRoll "A" 2 rollState)).activePlayers)).map
        (fun c' => c'.playerState) = some PlayerState.started ∧
    (alookup "A" ((stopLoopRoll "A" (startLoopRoll "A" 2 rollState)).activePlayers)).map
        (fun c' => c'.playerVolume) = some (gainToDb rollConnections.outputGain) ∧
    alookup "A" ((stopLoopRoll "A" (startLoopRoll "A" 2 rollState)).loopRollTransportEvents) =
      none ∧
    alookup "A"
      ((stopLoopRoll "A" (startLoopRoll "A" 2 rollState)).loopRollOriginalPositions) = none ∧
    ((stopLoopRoll "A" (startLoopRoll "A" 2 rollState)).transport.events.all
        (fun e => e.2 ≠ "A")) = true :=
  stopLoopRoll_amended rollState "A" rollConnections 2
    (by simp [rollState, emptyEngine, alookup]) rfl rfl rfl rfl

/-- The fresh voice allocated by `playSample` for sample `smp` in state
`s` (its id is the engine's next voice id). -/
noncomputable def mkVoice (s : AudioServiceState) (smp : SampleRef) : Voice :=
  { vid := s.nextVoiceId
    sampleId := smp.id
    isLoop := smp.mode = SampleMode.loop
    state := .started
    volume := gainToDb smp.volume
    rate := pitchToRate smp.pitch }

/-- A one-shot trigger never removes a voice: it appends the fresh voice
and repoints the sample-player map entry at it. -/
theorem playSample_oneShot_eq (s : AudioServiceState) (smp : SampleRef)
    (hb : smp.bufferLoaded = true) (hm : smp.mode = SampleMode.oneShot) :
    playSample smp s =
      { s with
        voices := s.voices ++ [mkVoice s smp]
        nextVoiceId := s.nextVoiceId + 1
        activeSamplePlayers := aset smp.id s.nextVoiceId s.activeSamplePlayers } := by
  rw [playSample]
  rcases h1 : alookup smp.id s.activeSamplePlayers with _ | vid
  · simp [hb, h1, mkVoice]
  · rcases h2 : s.voices.find? (fun w => w.vid = vid) with _ | v
    · simp [hb, h1, h2, mkVoice]
    · simp [hb, h1, h2, hm, mkVoice]

/-- A loop trigger with an active voice for the same id removes that voice
and its map entry, then appends the fresh looping voice. -/
theorem playSample_loop_eq (s : AudioServiceState) (smp : SampleRef) (vid : ℕ) (v : Voice)
    (hb : smp.bufferLoaded = true) (hm : smp.mode = SampleMode.loop)
    (hlu : alookup smp.id s.activeSamplePlayers = some vid)
    (hfind : s.voices.find? (fun w => w.vid = vid) = some v)
    (hvst : v.state = PlayerState.started) :
    playSample smp s =
      { s with
        voices := s.voices.filter (fun w => w.vid ≠ vid) ++ [mkVoice s smp]
        nextVoiceId := s.nextVoiceId + 1
        activeSamplePlayers :=
          aset smp.id s.nextVoiceId (aerase smp.id s.activeSamplePlayers) } := by
  rw [playSample]
  simp [hb, hlu, hfind, hvst, hm, mkVoice]

/-- A concrete default one-shot sample (the `loadSampleFile` defaults:
mode one-shot, volume 0.8, pitch 0). -/
noncomputable def oneShotSample : SampleRef :=
  { id := "s", bufferLoaded := true, mode := .oneShot, volume := 0.8, pitch := 0 }

/-- A concrete loop-mode sample on the same defaults. -/
noncomputable def loopSample : SampleRef :=
  { id := "l", bufferLoaded := true, mode := .loop, volume := 0.8, pitch := 0 }

/-- Claim C4, counterexample: After triggering a one-shot sample twice and
then calling `stopSample`, the *first* voice is still playing, and a
further `stopSample` call is a no-op: the overlapping voices are *not*
independently stoppable via `stop(sampleId)` — the map entry only ever
points at the newest voice. -/
theorem oneShot_voice_not_independently_stoppable :
    ((stopSample "s" (playSample oneShotSample (playSample oneShotSample
        emptyEngine))).voices.map (fun v => (v.vid, v.state)) =
      [(0, PlayerState.started)]) ∧
    stopSample "s" (stopSample "s" (playSample oneShotSample (playSample oneShotSample
        emptyEngine))) =
      stopSample "s" (playSample oneShotSample (playSample oneShotSample emptyEngine)) := by
  constructor <;>
    simp [playSample, stopSample, oneShotSample, emptyEngine, aset, aerase, alookup]

/-- Claim C4, amended: A loop trigger with an active voice for the same
sample id first stops and disposes that voice, then starts exactly one new
looping voice which the map points to. A one-shot trigger always starts a
new overlapping voice on top of every still-live prior voice — but only
the newest voice is reachable through `stop(sampleId)`: stopping removes
exactly it (leaving the earlier voices playing, to self-dispose on their
natural end), and afterwards no voice for the id is reachable at all. -/
theorem playSample_voice_semantics_amended
    (s₁ : AudioServiceState) (a : SampleRef)
    (ha : a.bufferLoaded = true) (ham : a.mode = SampleMode.oneShot)
    (hfresh₁ : ∀ w ∈ s₁.voices, w.vid < s₁.nextVoiceId)
    (s₂ : AudioServiceState) (b : SampleRef)
    (hbb : b.bufferLoaded = true) (hbm : b.mode = SampleMode.loop)
    (vid : ℕ) (v : Voice)
    (hlu : alookup b.id s₂.activeSamplePlayers = some vid)
    (hfind : s₂.voices.find? (fun w => w.vid = vid) = some v)
    (hvst : v.state = PlayerState.started)
    (hfresh₂ : ∀ w ∈ s₂.voices, w.vid < s₂.nextVoiceId) :
    (playSample a s₁).voices = s₁.voices ++ [mkVoice s₁ a] ∧
    (mkVoice s₁ a).isLoop = false ∧
    (mkVoice s₁ a).state = PlayerState.started ∧
    alookup a.id (playSample a s₁).activeSamplePlayers = some s₁.nextVoiceId ∧
    (stopSample a.id (playSample a s₁)).voices = s₁.voices ∧
    alookup a.id (stopSample a.id (playSample a s₁)).activeSamplePlayers = none ∧
    (playSample b s₂).voices =
      s₂.voices.filter (fun w => w.vid ≠ vid) ++ [mkVoice s₂ b] ∧
    (mkVoice s₂ b).isLoop = true ∧
    ((playSample b s₂).voices.all (fun w => w.vid ≠ vid)) = true ∧
    alookup b.id (playSample b s₂).activeSamplePlayers = some s₂.nextVoiceId := by
  have hplay₁ := playSample_oneShot_eq s₁ a ha ham
  have hplay₂ := playSample_loop_eq s₂ b vid v hbb hbm hlu hfind hvst
  have hstop : (stopSample a.id (playSample a s₁)) =
      { (playSample a s₁) with
        voices := s₁.voices
        activeSamplePlayers := aerase a.id (aset a.id s₁.nextVoiceId s₁.activeSamplePlayers) } := by
    rw [hplay₁, stopSample]
    simp only [alookup_aset_self]
    have hfind₁ : (s₁.voices ++ [mkVoice s₁ a]).find?
        (fun w => w.vid = s₁.nextVoiceId) = some (mkVoice s₁ a) := by
      rw [List.find?_append]
      rw [List.find?_eq_none.2 (fun w hw => by simpa using Nat.ne_of_lt (hfresh₁ w hw))]
      simp [mkVoice]
    rw [hfind₁]
    simp only [mkVoice, ite_true, if_pos rfl]
    simp [mkVoice]
    intro w hw
    exact Nat.ne_of_lt (hfresh₁ w hw)
  have hvidlt : vid < s₂.nextVoiceId := by
    have hmem := List.mem_of_find?_eq_some hfind
    have hpred := List.find?_some hfind
    have hvidv : v.vid = vid := by simpa using hpred
    simpa [hvidv] using hfresh₂ v hmem
  refine ⟨?_, ?_, ?_, ?_, ?_, ?_, ?_, ?_, ?_, ?_⟩
  · rw [hplay₁]
  · simp [mkVoice, ham]
  · rfl
  · rw [hplay₁]
    exact alookup_aset_self _ _ _
  · rw [hstop]
  · rw [hstop]
    exact alookup_aerase_self _ _
  · rw [hplay₂]
  · simp [mkVoice, hbm]
  · rw [hplay₂, List.all_eq_true]
    intro w hw
    rcases List.mem_append.1 hw with hw₁ | hw₂
    · have := List.of_mem_filter hw₁
      simpa using this
    · rcases List.mem_singleton.1 hw₂ with rfl
      simpa [mkVoice] using Nat.ne_of_gt hvidlt
  · rw [hplay₂]
    exact alookup_aset_self _ _ _

/-- Witness for `playSample_voice_semantics_amended`: a one-shot trigger
on the empty engine and a loop retrigger against the voice started by a
first loop trigger. -/
theorem playSample_voice_semantics_amended_witness :
    (playSample oneShotSample emptyEngine).voices =
      emptyEngine.voices ++ [mkVoice emptyEngine oneShotSample] ∧
    (mkVoice emptyEngine oneShotSample).isLoop = false ∧
    (mkVoice emptyEngine oneShotSample).state = PlayerState.started ∧
    alookup "s" (playSample oneShotSample emptyEngine).activeSamplePlayers =
      some emptyEngine.nextVoiceId ∧
    (stopSample "s" (playSample oneShotSample emptyEngine)).voices = emptyEngine.voices ∧
    alookup "s" (stopSample "s" (playSample oneShotSample emptyEngine)).activeSamplePlayers =
      none ∧
    (playSample loopSample (playSample loopSample emptyEngine)).voices =
      (playSample loopSample emptyEngine).voices.filter (fun w => w.vid ≠ 0) ++
        [mkVoice (playSample loopSample emptyEngine) loopSample] ∧
    (mkVoice (playSample loopSample emptyEngine) loopSample).isLoop = true ∧
    ((playSample loopSample (playSample loopSample emptyEngine)).voices.all
        (fun w => w.vid ≠ 0)) = true ∧
    alookup "l" (playSample loopSample (playSample loopSample
        emptyEngine)).activeSamplePlayers =
      some (playSample loopSample emptyEngine).nextVoiceId :=
  playSample_voice_semantics_amended emptyEngine oneShotSample rfl rfl
    (by simp [emptyEngine])
    (playSample loopSample emptyEngine) loopSample rfl rfl
    0 (mkVoice emptyEngine loopSample)
    (by simp [playSample, loopSample, emptyEngine, aset, aerase, alookup])
    (by simp [playSample, mkVoice, loopSample, emptyEngine, aset, aerase, alookup])
    rfl
    (by simp [playSample, loopSample, emptyEngine, aset, aerase, alookup])

/-- Claim C9: `disposePlayerConnections` called twice in a row does not
throw (it is a total function and the second call is a no-op), *but* it
does not cancel a pending loop-roll transport event: disposing deck "A"
while its loop roll is active leaves event 0 registered both in
`loopRollTransportEvents` and on the transport — the scheduled callback
referencing the disposed deck's nodes survives teardown. -/
theorem dispose_leaves_loop_roll_event_eval :
    alookup "A" ((disposePlayerConnections "A"
        (startLoopRoll "A" 2 rollState)).loopRollTransportEvents) = some 0 ∧
    (0, "A") ∈ (disposePlayerConnections "A"
        (startLoopRoll "A" 2 rollState)).transport.events ∧
    disposePlayerConnections "A" (disposePlayerConnections "A"
        (startLoopRoll "A" 2 rollState)) =
      disposePlayerConnections "A" (startLoopRoll "A" 2 rollState) := by
  refine ⟨?_, ?_, ?_⟩ <;>
    simp [disposePlayerConnections, startLoopRoll, stopLoopRoll, rollState,
      rollConnections, emptyEngine, setConnections, aset, aerase, alookup]

/-- Witness for `engine_ops_noop_without_chain` on the empty engine. -/
theorem engine_ops_noop_without_chain_witness :
    playTrack "A" emptyEngine = emptyEngine ∧
    pauseTrack "A" emptyEngine = emptyEngine ∧
    stopTrack "A" emptyEngine = emptyEngine ∧
    seekTo "A" 1 emptyEngine = emptyEngine ∧
    setPlaybackRate "A" 1 emptyEngine = emptyEngine ∧
    setPlayerVolume "A" 1 emptyEngine = emptyEngine ∧
    updateFluxFX "A" 1 1 emptyEngine = emptyEngine :=
  engine_ops_noop_without_chain emptyEngine "A" 1 1 1 1 1 rfl

end DjPro
